import Mathlib

/-!
Shallow embedding of the slide-generation core of the aippt-generation
service (src/main.py): the outline parser and layout assigner
`text_to_slides`, the template registry `TEMPLATES`, and the HTTP
generation endpoint `generate_ppt`.

Python string primitives are modelled as structural functions on the
character list underlying a `String`, so that every definition evaluates
by kernel reduction on concrete inputs.
-/

/-- Whitespace characters stripped by Python's `str.strip()` (ASCII subset,
which is all this program's inputs use). -/
def pyIsSpace (c : Char) : Bool :=
  c = ' ' || c = '\t' || c = '\n' || c = '\r' || c = '\x0b' || c = '\x0c'

/-- Models Python `str.strip()` on the underlying character list: drop
whitespace from both ends. -/
def stripChars (l : List Char) : List Char :=
  ((l.dropWhile pyIsSpace).reverse.dropWhile pyIsSpace).reverse

/-- Models Python `str.strip()`. -/
def pyStrip (s : String) : String :=
  ⟨stripChars s.data⟩

/-- Auxiliary: split a character list at newline characters, keeping the
accumulated current chunk (in reverse). -/
def splitNlAux : List Char → List Char → List (List Char)
  | [], acc => [acc.reverse]
  | c :: cs, acc =>
    if c = '\n' then acc.reverse :: splitNlAux cs []
    else splitNlAux cs (c :: acc)

/-- Models Python `s.split("\n")`: `"".split("\n") = [""]`, and one chunk
per newline-separated segment. -/
def pySplitNl (s : String) : List String :=
  (splitNlAux s.data []).map String.mk

/-- Models Python `line.startswith("-")`. -/
def startsWithDash (s : String) : Bool :=
  match s.data with
  | '-' :: _ => true
  | _ => false

/-- Models Python `line[1:]`: drop the first character. -/
def pyDropFirst (s : String) : String :=
  ⟨s.data.drop 1⟩

/-- One content Slide Specification: section title, bullet texts, and the
layout index chosen for it. -/
structure SlideSpec where
  title : String
  bullets : List String
  layout : Nat
deriving Repr, DecidableEq

/-- The errors `text_to_slides` can raise, modelled structurally:
`zeroDiv` is Python's `ZeroDivisionError` from `% 0`; `fileNotFound` is the
`FileNotFoundError` for a missing template file; the two out-of-range
constructors are the `ValueError`s of the layout-index validation, carrying
the offending index named in the message. -/
inductive PyError where
  | zeroDiv
  | fileNotFound (file : String)
  | coverLayoutOutOfRange (idx : Nat)
  | contentLayoutOutOfRange (idx : Nat)
deriving Repr, DecidableEq

/-- `content_layouts[layout_counter % len(content_layouts)]` for a cursor
value known to be reduced modulo the length; the default 0 is never used
because `counter % layouts.length < layouts.length` whenever the length is
nonzero, and the zero-length case is diverted to `PyError.zeroDiv` before
this is evaluated. -/
def pickLayout (layouts : List Nat) (counter : Nat) : Nat :=
  layouts.getD (counter % layouts.length) 0

/-- The content-page loop of `text_to_slides` (src/main.py lines 128-168),
translated line by line: state is `(section_title, bullets, layout_counter)`;
an empty line or a new title line flushes the open group when
`section_title and bullets` is truthy (in Python a `some ""` title would be
falsy, hence the extra `t = ""` test); a flush with an empty layout list
raises `ZeroDivisionError` at the `%`. The result pairs the slides emitted
before termination with the error, if one was raised. -/
def slidesLoop (layouts : List Nat) :
    List String → Option String → List String → Nat →
    List SlideSpec × Option PyError
  | [], _, _, _ => ([], none)
  | line :: rest, st, bs, counter =>
    if line = "" then
      match st, bs with
      | some t, b :: bs2 =>
        if t = "" then
          slidesLoop layouts rest (some t) (b :: bs2) counter
        else if layouts.length = 0 then
          ([], some PyError.zeroDiv)
        else
          let r := slidesLoop layouts rest none [] (counter + 1)
          (⟨t, b :: bs2, pickLayout layouts counter⟩ :: r.1, r.2)
      | s, b => slidesLoop layouts rest s b counter
    else if startsWithDash line = false then
      match st, bs with
      | some t, b :: bs2 =>
        if t = "" then
          slidesLoop layouts rest (some line) [] counter
        else if layouts.length = 0 then
          ([], some PyError.zeroDiv)
        else
          let r := slidesLoop layouts rest (some line) [] (counter + 1)
          (⟨t, b :: bs2, pickLayout layouts counter⟩ :: r.1, r.2)
      | _, _ => slidesLoop layouts rest (some line) [] counter
    else
      slidesLoop layouts rest st (bs ++ [pyStrip (pyDropFirst line)]) counter

/-- `lines = [l.strip() for l in outline_text.split("\n") if l.strip()]`
(src/main.py line 123). -/
def parseLines (outline_text : String) : List String :=
  ((pySplitNl outline_text).map pyStrip).filter (fun l => l ≠ "")

/-- The outline-to-content-slides core of `text_to_slides` (the spec's
`assign_slides` contract): parse lines, append the synthetic `""`
terminator, run the loop from `(None, [], 0)`. -/
def assign_slides (content_layouts : List Nat) (outline_text : String) :
    List SlideSpec × Option PyError :=
  slidesLoop content_layouts (parseLines outline_text ++ [""]) none [] 0

/-- One entry of the `TEMPLATES` dict (src/main.py lines 53-89). -/
structure TemplateDescriptor where
  name : String
  description : String
  file : String
  cover_layout : Nat
  content_layouts : List Nat
deriving Repr, DecidableEq

/-- `TEMPLATES["default"]`. -/
def defaultTemplate : TemplateDescriptor :=
  ⟨"默认模板", "简洁专业的商务风格", "templates/default.pptx", 0, [1, 2, 3]⟩

/-- The `TEMPLATES` dict (src/main.py lines 53-89) as an association list. -/
def TEMPLATES : List (String × TemplateDescriptor) :=
  [("default", defaultTemplate),
   ("blue", ⟨"蓝色商务", "专业商务风格，蓝色主题", "templates/blue.pptx", 0, [1, 2, 3]⟩),
   ("green", ⟨"绿色环保", "清新环保风格，绿色主题", "templates/green.pptx", 0, [1, 2, 3]⟩),
   ("red", ⟨"红色活力", "活力四射风格，红色主题", "templates/red.pptx", 0, [1, 2, 3]⟩),
   ("dark", ⟨"深色专业", "深色背景专业风格", "templates/dark.pptx", 0, [1, 2, 3]⟩)]

/-- Dict key lookup in `TEMPLATES`, returning `none` for an absent key. -/
def TEMPLATES_find (template_name : String) : Option TemplateDescriptor :=
  (TEMPLATES.find? (fun p => p.1 = template_name)).map Prod.snd

/-- `TEMPLATES.get(template_name, TEMPLATES["default"])`
(src/main.py line 94): unknown names fall back to the default template. -/
def getTemplate (template_name : String) : TemplateDescriptor :=
  (TEMPLATES_find template_name).getD defaultTemplate

/-- A slide added to the presentation: the cover (its title set from the
request title, secondary placeholder blanked) or a content slide built
from a `SlideSpec`. -/
inductive Slide where
  | cover (title : String)
  | content (spec : SlideSpec)
deriving Repr, DecidableEq

/-- The parts of the outside world `text_to_slides` consults: whether a
template file exists on disk, and how many slide layouts
(`len(prs.slide_layouts)`) the presentation opened from that file offers. -/
structure Env where
  fileExists : String → Bool
  layoutCount : String → Nat

/-- `for idx in content_layouts: if idx >= len(prs.slide_layouts): raise`
(src/main.py lines 109-111): error on the first out-of-range entry. -/
def validateContentLayouts (n : Nat) : List Nat → Option PyError
  | [] => none
  | idx :: rest =>
    if n ≤ idx then some (PyError.contentLayoutOutOfRange idx)
    else validateContentLayouts n rest

/-- `text_to_slides(title, outline_text, template_name)`
(src/main.py lines 92-170). The result pairs the slides added to the
presentation before termination with the raised error, if any: template
lookup with default fallback, template-file existence check, layout-index
validation, then the cover slide, then the content loop. All checks happen
before any slide is added. -/
def text_to_slides (env : Env) (title outline_text template_name : String) :
    List Slide × Option PyError :=
  let template := getTemplate template_name
  let template_file := template.file
  let cover_layout_idx := template.cover_layout
  let content_layouts := template.content_layouts
  if env.fileExists template_file = false then
    ([], some (PyError.fileNotFound template_file))
  else if env.layoutCount template_file ≤ cover_layout_idx then
    ([], some (PyError.coverLayoutOutOfRange cover_layout_idx))
  else
    match validateContentLayouts (env.layoutCount template_file) content_layouts with
    | some e => ([], some e)
    | none =>
      let r := assign_slides content_layouts outline_text
      (Slide.cover title :: r.1.map Slide.content, r.2)

/-- The last element of a list of section-title lines, `""` for the empty
list; used to state which title of a run survives the overwriting. -/
def lastTitle : List String → String
  | [] => ""
  | [t] => t
  | _ :: t2 :: tl => lastTitle (t2 :: tl)

/-- The response of the `/api/generate` endpoint: success with the stored
file name and download URL, HTTP 400 for an invalid template choice, or
HTTP 500 when generation raised. -/
inductive GenResponse where
  | ok (filename : String) (url : String)
  | badRequest (error : String)
  | serverError (error : PyError)
deriving Repr, DecidableEq

/-- `generate_ppt(title, content, template)` (src/main.py lines 214-240)
over the `generated/` directory modelled as the list `store` of stored file
names; `ts` is the `datetime.now()` timestamp. The registry guard runs
first and touches nothing; only a successful generation writes a file. -/
def generate_ppt (env : Env) (store : List String) (ts : String)
    (title content template : String) : GenResponse × List String :=
  if (TEMPLATES_find template).isNone then
    (GenResponse.badRequest "无效的模板选择", store)
  else
    match (text_to_slides env title content template).2 with
    | some e => (GenResponse.serverError e, store)
    | none =>
      let fname := "PPT_" ++ ts ++ ".pptx"
      (GenResponse.ok fname ("/download/" ++ fname), store ++ [fname])

/-! ### Environments used to instantiate the theorems on concrete inputs -/

/-- Every template file exists and offers 10 slide layouts. -/
def envWide : Env := ⟨fun _ => true, fun _ => 10⟩

/-- Every template file exists but offers only 2 slide layouts, fewer than
the registry's content layout index 3 requires. -/
def envTwoLayouts : Env := ⟨fun _ => true, fun _ => 2⟩

/-- Agrees with `envWide` on the default template's file and differs
elsewhere. -/
def envOther : Env :=
  ⟨fun _ => true, fun f => if f = "templates/default.pptx" then 10 else 3⟩

/-! ### Small-step lemmas for the content loop -/

theorem slidesLoop_nil (layouts : List Nat) (st : Option String) (bs : List String)
    (c : Nat) : slidesLoop layouts [] st bs c = ([], none) := rfl

theorem slidesLoop_bullet (layouts : List Nat) (line : String) (rest : List String)
    (st : Option String) (bs : List String) (c : Nat)
    (hd : startsWithDash line = true) :
    slidesLoop layouts (line :: rest) st bs c =
      slidesLoop layouts rest st (bs ++ [pyStrip (pyDropFirst line)]) c := by
  have hne : line ≠ "" := by
    intro h
    rw [h] at hd
    exact absurd hd (by decide)
  simp [slidesLoop, hne, hd]

theorem slidesLoop_title_noflush (layouts : List Nat) (line : String)
    (rest : List String) (st : Option String) (bs : List String) (c : Nat)
    (hne : line ≠ "") (hd : startsWithDash line = false)
    (hnf : st = none ∨ bs = [] ∨ st = some "") :
    slidesLoop layouts (line :: rest) st bs c =
      slidesLoop layouts rest (some line) [] c := by
  rcases hnf with h | h | h
  · subst h
    rcases bs with _ | ⟨b, bs2⟩ <;> simp [slidesLoop, hne, hd]
  · subst h
    rcases st with _ | t <;> simp [slidesLoop, hne, hd]
  · subst h
    rcases bs with _ | ⟨b, bs2⟩ <;> simp [slidesLoop, hne, hd]

theorem slidesLoop_title_flush (layouts : List Nat) (line t : String)
    (rest : List String) (b : String) (bs2 : List String) (c : Nat)
    (hne : line ≠ "") (hd : startsWithDash line = false) (ht : t ≠ "")
    (hl : layouts.length ≠ 0) :
    slidesLoop layouts (line :: rest) (some t) (b :: bs2) c =
      (⟨t, b :: bs2, pickLayout layouts c⟩ ::
          (slidesLoop layouts rest (some line) [] (c + 1)).1,
        (slidesLoop layouts rest (some line) [] (c + 1)).2) := by
  simp [slidesLoop, hne, hd, ht, hl]

theorem slidesLoop_title_flush_zero (layouts : List Nat) (line t : String)
    (rest : List String) (b : String) (bs2 : List String) (c : Nat)
    (hne : line ≠ "") (hd : startsWithDash line = false) (ht : t ≠ "")
    (hl : layouts.length = 0) :
    slidesLoop layouts (line :: rest) (some t) (b :: bs2) c =
      ([], some PyError.zeroDiv) := by
  simp [slidesLoop, hne, hd, ht, hl]

theorem slidesLoop_term_noflush (layouts : List Nat) (rest : List String)
    (st : Option String) (bs : List String) (c : Nat)
    (hnf : st = none ∨ bs = [] ∨ st = some "") :
    slidesLoop layouts ("" :: rest) st bs c = slidesLoop layouts rest st bs c := by
  rcases hnf with h | h | h
  · subst h
    rcases bs with _ | ⟨b, bs2⟩ <;> simp [slidesLoop]
  · subst h
    rcases st with _ | t <;> simp [slidesLoop]
  · subst h
    rcases bs with _ | ⟨b, bs2⟩ <;> simp [slidesLoop]

theorem slidesLoop_term_flush (layouts : List Nat) (t : String)
    (rest : List String) (b : String) (bs2 : List String) (c : Nat)
    (ht : t ≠ "") (hl : layouts.length ≠ 0) :
    slidesLoop layouts ("" :: rest) (some t) (b :: bs2) c =
      (⟨t, b :: bs2, pickLayout layouts c⟩ ::
          (slidesLoop layouts rest none [] (c + 1)).1,
        (slidesLoop layouts rest none [] (c + 1)).2) := by
  simp [slidesLoop, ht, hl]

theorem slidesLoop_term_flush_zero (layouts : List Nat) (t : String)
    (rest : List String) (b : String) (bs2 : List String) (c : Nat)
    (ht : t ≠ "") (hl : layouts.length = 0) :
    slidesLoop layouts ("" :: rest) (some t) (b :: bs2) c =
      ([], some PyError.zeroDiv) := by
  simp [slidesLoop, ht, hl]

/-! ### Invariants of the content loop -/

/-- With a non-empty layout list the loop never raises, and the `i`-th
emitted slide (0-indexed) built from cursor start `c` carries layout
`content_layouts[(c + i) % len]`. -/
theorem slidesLoop_sound (layouts : List Nat) (hl : layouts.length ≠ 0)
    (lines : List String) :
    ∀ (st : Option String) (bs : List String) (c : Nat),
      (slidesLoop layouts lines st bs c).2 = none ∧
      ∀ i, i < (slidesLoop layouts lines st bs c).1.length →
        ((slidesLoop layouts lines st bs c).1.getD i ⟨"", [], 0⟩).layout =
          pickLayout layouts (c + i) := by
  induction lines with
  | nil =>
    intro st bs c
    refine ⟨rfl, ?_⟩
    intro i hi
    simp [slidesLoop_nil] at hi
  | cons line rest ih =>
    intro st bs c
    by_cases hline : line = ""
    · subst hline
      rcases st with _ | t
      · rw [slidesLoop_term_noflush layouts rest none bs c (Or.inl rfl)]
        exact ih none bs c
      · rcases bs with _ | ⟨b, bs2⟩
        · rw [slidesLoop_term_noflush layouts rest (some t) [] c (Or.inr (Or.inl rfl))]
          exact ih (some t) [] c
        · by_cases ht : t = ""
          · subst ht
            rw [slidesLoop_term_noflush layouts rest (some "") (b :: bs2) c
              (Or.inr (Or.inr rfl))]
            exact ih (some "") (b :: bs2) c
          · rw [slidesLoop_term_flush layouts t rest b bs2 c ht hl]
            refine ⟨(ih none [] (c + 1)).1, ?_⟩
            intro i hi
            cases i with
            | zero => simp [List.getD_cons_zero]
            | succ j =>
              simp only [List.getD_cons_succ]
              have hj : j < (slidesLoop layouts rest none [] (c + 1)).1.length := by
                simpa using hi
              rw [show c + (j + 1) = c + 1 + j by omega]
              exact (ih none [] (c + 1)).2 j hj
    · cases hd : startsWithDash line with
      | true =>
        rw [slidesLoop_bullet layouts line rest st bs c hd]
        exact ih st (bs ++ [pyStrip (pyDropFirst line)]) c
      | false =>
        rcases st with _ | t
        · rw [slidesLoop_title_noflush layouts line rest none bs c hline hd (Or.inl rfl)]
          exact ih (some line) [] c
        · rcases bs with _ | ⟨b, bs2⟩
          · rw [slidesLoop_title_noflush layouts line rest (some t) [] c hline hd
              (Or.inr (Or.inl rfl))]
            exact ih (some line) [] c
          · by_cases ht : t = ""
            · subst ht
              rw [slidesLoop_title_noflush layouts line rest (some "") (b :: bs2) c hline hd
                (Or.inr (Or.inr rfl))]
              exact ih (some line) [] c
            · rw [slidesLoop_title_flush layouts line t rest b bs2 c hline hd ht hl]
              refine ⟨(ih (some line) [] (c + 1)).1, ?_⟩
              intro i hi
              cases i with
              | zero => simp [List.getD_cons_zero]
              | succ j =>
                simp only [List.getD_cons_succ]
                have hj : j < (slidesLoop layouts rest (some line) [] (c + 1)).1.length := by
                  simpa using hi
                rw [show c + (j + 1) = c + 1 + j by omega]
                exact (ih (some line) [] (c + 1)).2 j hj

/-- With no bullet line anywhere and an empty bullet accumulator, the loop
emits nothing and raises nothing, whatever the pending title. -/
theorem slidesLoop_no_bullets (layouts : List Nat) :
    ∀ (lines : List String), (∀ l ∈ lines, startsWithDash l = false) →
      ∀ (st : Option String) (c : Nat),
        slidesLoop layouts lines st [] c = ([], none) := by
  intro lines
  induction lines with
  | nil => intro _ st c; rfl
  | cons line rest ih =>
    intro hb st c
    have hbr : ∀ l ∈ rest, startsWithDash l = false := fun l hm => hb l (by simp [hm])
    by_cases hline : line = ""
    · subst hline
      rw [slidesLoop_term_noflush layouts rest st [] c (Or.inr (Or.inl rfl))]
      exact ih hbr st c
    · rw [slidesLoop_title_noflush layouts line rest st [] c hline (hb line (by simp))
        (Or.inr (Or.inl rfl))]
      exact ih hbr (some line) c

/-- The validation loop reports the first out-of-range entry. -/
theorem validateContentLayouts_first_bad (n : Nat) :
    ∀ (pre : List Nat) (idx : Nat) (post : List Nat),
      (∀ j ∈ pre, j < n) → n ≤ idx →
      validateContentLayouts n (pre ++ idx :: post) =
        some (PyError.contentLayoutOutOfRange idx) := by
  intro pre
  induction pre with
  | nil =>
    intro idx post _ hidx
    simp [validateContentLayouts, hidx]
  | cons j pre ih =>
    intro idx post hpre hidx
    have hj : ¬ (n ≤ j) := by
      have := hpre j (by simp)
      omega
    simp only [List.cons_append, validateContentLayouts, if_neg hj]
    exact ih idx post (fun k hk => hpre k (by simp [hk])) hidx

theorem lastTitle_cons_cons (a b : String) (l : List String) :
    lastTitle (a :: b :: l) = lastTitle (b :: l) := rfl

theorem lastTitle_mem : ∀ (l : List String), l ≠ [] → lastTitle l ∈ l := by
  intro l
  induction l with
  | nil => intro h; exact absurd rfl h
  | cons a tl ih =>
    intro _
    cases tl with
    | nil => simp [lastTitle]
    | cons b tl2 =>
      rw [lastTitle_cons_cons]
      exact List.mem_cons_of_mem a (ih (by simp))

/-- A run of consecutive section-title lines collapses to its last title:
processing the whole run from any state is the same as processing only the
last title of the run. -/
theorem slidesLoop_title_run (layouts : List Nat) :
    ∀ (run : List String), run ≠ [] →
      (∀ t ∈ run, t ≠ "" ∧ startsWithDash t = false) →
      ∀ (rest : List String) (st : Option String) (bs : List String) (c : Nat),
        slidesLoop layouts (run ++ rest) st bs c =
          slidesLoop layouts (lastTitle run :: rest) st bs c := by
  intro run
  induction run with
  | nil => intro h; exact absurd rfl h
  | cons t1 tl ih =>
    intro _ hrun rest st bs c
    cases tl with
    | nil => rfl
    | cons t2 tl2 =>
      have h1 : t1 ≠ "" := (hrun t1 (by simp)).1
      have h1d : startsWithDash t1 = false := (hrun t1 (by simp)).2
      have hrun2 : ∀ t ∈ t2 :: tl2, t ≠ "" ∧ startsWithDash t = false :=
        fun t hm => hrun t (by simp [hm])
      have hgmem : lastTitle (t2 :: tl2) ∈ t1 :: t2 :: tl2 :=
        List.mem_cons_of_mem t1 (lastTitle_mem (t2 :: tl2) (by simp))
      have hg1 : lastTitle (t2 :: tl2) ≠ "" := (hrun _ hgmem).1
      have hg1d : startsWithDash (lastTitle (t2 :: tl2)) = false := (hrun _ hgmem).2
      rw [lastTitle_cons_cons]
      have hLHS : (t1 :: t2 :: tl2) ++ rest = t1 :: ((t2 :: tl2) ++ rest) := rfl
      rw [hLHS]
      rcases st with _ | t
      · rw [slidesLoop_title_noflush layouts t1 ((t2 :: tl2) ++ rest) none bs c h1 h1d
          (Or.inl rfl)]
        rw [ih (by simp) hrun2 rest (some t1) [] c]
        rw [slidesLoop_title_noflush layouts (lastTitle (t2 :: tl2)) rest (some t1) [] c
          hg1 hg1d (Or.inr (Or.inl rfl))]
        rw [slidesLoop_title_noflush layouts (lastTitle (t2 :: tl2)) rest none bs c
          hg1 hg1d (Or.inl rfl)]
      · rcases bs with _ | ⟨b, bs2⟩
        · rw [slidesLoop_title_noflush layouts t1 ((t2 :: tl2) ++ rest) (some t) [] c h1 h1d
            (Or.inr (Or.inl rfl))]
          rw [ih (by simp) hrun2 rest (some t1) [] c]
          rw [slidesLoop_title_noflush layouts (lastTitle (t2 :: tl2)) rest (some t1) [] c
            hg1 hg1d (Or.inr (Or.inl rfl))]
          rw [slidesLoop_title_noflush layouts (lastTitle (t2 :: tl2)) rest (some t) [] c
            hg1 hg1d (Or.inr (Or.inl rfl))]
        · by_cases ht : t = ""
          · subst ht
            rw [slidesLoop_title_noflush layouts t1 ((t2 :: tl2) ++ rest) (some "")
              (b :: bs2) c h1 h1d (Or.inr (Or.inr rfl))]
            rw [ih (by simp) hrun2 rest (some t1) [] c]
            rw [slidesLoop_title_noflush layouts (lastTitle (t2 :: tl2)) rest (some t1) [] c
              hg1 hg1d (Or.inr (Or.inl rfl))]
            rw [slidesLoop_title_noflush layouts (lastTitle (t2 :: tl2)) rest (some "")
              (b :: bs2) c hg1 hg1d (Or.inr (Or.inr rfl))]
          · by_cases hl : layouts.length = 0
            · rw [slidesLoop_title_flush_zero layouts t1 t ((t2 :: tl2) ++ rest) b bs2 c
                h1 h1d ht hl]
              rw [slidesLoop_title_flush_zero layouts (lastTitle (t2 :: tl2)) t rest b bs2 c
                hg1 hg1d ht hl]
            · rw [slidesLoop_title_flush layouts t1 t ((t2 :: tl2) ++ rest) b bs2 c
                h1 h1d ht hl]
              rw [ih (by simp) hrun2 rest (some t1) [] (c + 1)]
              rw [slidesLoop_title_noflush layouts (lastTitle (t2 :: tl2)) rest (some t1) []
                (c + 1) hg1 hg1d (Or.inr (Or.inl rfl))]
              rw [slidesLoop_title_flush layouts (lastTitle (t2 :: tl2)) t rest b bs2 c
                hg1 hg1d ht hl]

/-! ### The claims -/

/-- C1: for every non-empty `content_layouts` and every outline, the Nth
content slide emitted by the loop of `text_to_slides` (0-indexed `i` here,
so `N = i + 1`) is created from layout `content_layouts[i % K]`, i.e.
`content_layouts[(N-1) mod K]`: the cursor starts at 0 and is incremented
exactly once per emitted content slide. -/
theorem assign_slides_layout_rotation (layouts : List Nat) (outline_text : String)
    (hl : layouts ≠ []) (i : Nat)
    (hi : i < (assign_slides layouts outline_text).1.length) :
    ((assign_slides layouts outline_text).1.getD i ⟨"", [], 0⟩).layout =
      layouts.getD (i % layouts.length) 0 := by
  have hl0 : layouts.length ≠ 0 := by simpa [List.length_eq_zero] using hl
  have h := (slidesLoop_sound layouts hl0 (parseLines outline_text ++ [""]) none [] 0).2 i
    (by simpa [assign_slides] using hi)
  simpa [assign_slides, pickLayout] using h

/-- C1 witness: with layouts `[4, 5]` and three emitted content slides, the
third slide (index 2) uses layout `[4, 5][2 % 2] = 4`. -/
theorem assign_slides_layout_rotation_witness :
    ([4, 5] : List Nat) ≠ [] ∧
    2 < (assign_slides [4, 5] "A\n-x\nB\n-y\nC\n-z").1.length ∧
    ((assign_slides [4, 5] "A\n-x\nB\n-y\nC\n-z").1.getD 2 ⟨"", [], 0⟩).layout =
      ([4, 5] : List Nat).getD (2 % ([4, 5] : List Nat).length) 0 :=
  ⟨by decide, by decide,
    assign_slides_layout_rotation [4, 5] "A\n-x\nB\n-y\nC\n-z" (by decide) 2 (by decide)⟩

/-- C2 counterexample: with an empty `content_layouts`, the failure that
occurs is the unguarded modulo-by-zero (`ZeroDivisionError`) raised at the
first group flush — not a guarded configuration error — and when no flush
happens no failure occurs at all, showing there is no explicit up-front
guard. -/
theorem empty_layouts_counterexample :
    assign_slides ([] : List Nat) "A\n-x" = ([], some PyError.zeroDiv) ∧
    assign_slides ([] : List Nat) "A" = ([], none) := by
  constructor
  · decide
  · decide

/-- C2 amended: with an empty `content_layouts`, the loop fails with an
unguarded modulo-by-zero crash when a content slide is flushed (there is no
explicit guard, and with no flush it does not fail at all); for every
non-empty `content_layouts` the modulo operation is well-defined and no
error occurs. -/
theorem empty_layouts_amended :
    assign_slides ([] : List Nat) "A\n-x" = ([], some PyError.zeroDiv) ∧
    ∀ (layouts : List Nat) (outline_text : String), layouts ≠ [] →
      (assign_slides layouts outline_text).2 = none := by
  constructor
  · decide
  · intro layouts o hl
    have hl0 : layouts.length ≠ 0 := by simpa [List.length_eq_zero] using hl
    exact (slidesLoop_sound layouts hl0 (parseLines o ++ [""]) none [] 0).1

/-- C2 witness for the amended claim at layouts `[5]`. -/
theorem empty_layouts_amended_witness :
    ([5] : List Nat) ≠ [] ∧ (assign_slides [5] "B\n-c").2 = none :=
  ⟨by decide, empty_layouts_amended.2 [5] "B\n-c" (by decide)⟩

/-- C3: on outline `"A\n-x\n-y\n\nB\n-z"` with `content_layouts = [1,2,3]`
exactly two content slides are emitted, in order
`{title:"A", bullets:["x","y"], layout:1}` then
`{title:"B", bullets:["z"], layout:2}`. -/
theorem assign_slides_concrete_example :
    assign_slides [1, 2, 3] "A\n-x\n-y\n\nB\n-z" =
      ([⟨"A", ["x", "y"], 1⟩, ⟨"B", ["z"], 2⟩], none) := by
  decide

/-- C4: an outline whose trimmed non-empty lines contain no bullet line
produces zero content slides (and no error), however many section-title
lines it contains: a titled group with no bullets is never emitted. -/
theorem no_bullets_no_slides (layouts : List Nat) (outline_text : String)
    (hb : ∀ l ∈ parseLines outline_text, startsWithDash l = false) :
    assign_slides layouts outline_text = ([], none) := by
  have hb2 : ∀ l ∈ parseLines outline_text ++ [""], startsWithDash l = false := by
    intro l hm
    rcases List.mem_append.mp hm with h | h
    · exact hb l h
    · simp at h
      subst h
      rfl
  unfold assign_slides
  exact slidesLoop_no_bullets layouts (parseLines outline_text ++ [""]) hb2 none 0

/-- C4 witness: three title lines, no bullets, zero slides. -/
theorem no_bullets_no_slides_witness :
    assign_slides [9] "Alpha\nBeta\nGamma" = ([], none) :=
  no_bullets_no_slides [9] "Alpha\nBeta\nGamma" (by decide)

/-- C5: a bullet line before any section title is silently discarded: on
`"-orphan\nA\n-x"` exactly one content slide is emitted,
`{title:"A", bullets:["x"], layout: content_layouts[0]}`. -/
theorem orphan_bullet_discarded (layouts : List Nat) (hl : layouts ≠ []) :
    assign_slides layouts "-orphan\nA\n-x" =
      ([⟨"A", ["x"], layouts.getD 0 0⟩], none) := by
  have hl0 : layouts.length ≠ 0 := by simpa [List.length_eq_zero] using hl
  have hp : parseLines "-orphan\nA\n-x" = ["-orphan", "A", "-x"] := by decide
  unfold assign_slides
  rw [hp]
  have h1 : (["-orphan", "A", "-x"] ++ [""]) = ["-orphan", "A", "-x", ""] := rfl
  rw [h1]
  rw [slidesLoop_bullet layouts "-orphan" ["A", "-x", ""] none [] 0 (by decide)]
  rw [slidesLoop_title_noflush layouts "A" ["-x", ""] none
    ([] ++ [pyStrip (pyDropFirst "-orphan")]) 0 (by decide) (by decide) (Or.inl rfl)]
  rw [slidesLoop_bullet layouts "-x" [""] (some "A") [] 0 (by decide)]
  rw [show ([] ++ [pyStrip (pyDropFirst "-x")]) = [pyStrip (pyDropFirst "-x")] from rfl]
  rw [show [pyStrip (pyDropFirst "-x")] = ["x"] from by decide]
  rw [slidesLoop_term_flush layouts "A" [] "x" [] 0 (by decide) hl0]
  simp [slidesLoop_nil, pickLayout, Nat.zero_mod]

/-- C5 witness at layouts `[7, 8]`: the single slide uses layout 7. -/
theorem orphan_bullet_discarded_witness :
    ([7, 8] : List Nat) ≠ [] ∧
    assign_slides [7, 8] "-orphan\nA\n-x" =
      ([⟨"A", ["x"], ([7, 8] : List Nat).getD 0 0⟩], none) :=
  ⟨by decide, orphan_bullet_discarded [7, 8] (by decide)⟩

/-- C6: with the template file present, an out-of-range `cover_layout`, or
(cover in range) a first out-of-range `content_layouts` entry, makes
`text_to_slides` raise the "layout index out of range" `ValueError` naming
the offending index, with the slide list still empty — no partially-built
slide sequence is produced on a configuration mismatch. -/
theorem validation_before_any_slide (env : Env)
    (title outline_text template_name : String)
    (hfe : env.fileExists (getTemplate template_name).file = true) :
    (env.layoutCount (getTemplate template_name).file ≤
        (getTemplate template_name).cover_layout →
      text_to_slides env title outline_text template_name =
        ([], some (PyError.coverLayoutOutOfRange
          (getTemplate template_name).cover_layout))) ∧
    (∀ (pre : List Nat) (idx : Nat) (post : List Nat),
      (getTemplate template_name).content_layouts = pre ++ idx :: post →
      (getTemplate template_name).cover_layout <
        env.layoutCount (getTemplate template_name).file →
      (∀ j ∈ pre, j < env.layoutCount (getTemplate template_name).file) →
      env.layoutCount (getTemplate template_name).file ≤ idx →
      text_to_slides env title outline_text template_name =
        ([], some (PyError.contentLayoutOutOfRange idx))) := by
  constructor
  · intro hc
    simp [text_to_slides, hfe, hc]
  · intro pre idx post hsplit hcov hpre hidx
    have hv := validateContentLayouts_first_bad
      (env.layoutCount (getTemplate template_name).file) pre idx post hpre hidx
    simp [text_to_slides, hfe, hsplit, hv, Nat.not_le.mpr hcov]

/-- C6 witness: with only 2 layouts available, the default template's
content layout 2 is the first offending index and no slide is built. -/
theorem validation_before_any_slide_witness :
    envTwoLayouts.fileExists (getTemplate "default").file = true ∧
    (getTemplate "default").content_layouts = [1] ++ 2 :: [3] ∧
    text_to_slides envTwoLayouts "t" "o" "default" =
      ([], some (PyError.contentLayoutOutOfRange 2)) :=
  ⟨by decide, by decide,
    (validation_before_any_slide envTwoLayouts "t" "o" "default" (by decide)).2
      [1] 2 [3] (by decide) (by decide) (by decide) (by decide)⟩

/-- C7: a run of consecutive section-title lines with no bullets in between
collapses to its last title: processing the run is indistinguishable from
processing only the last title, so each later title overwrites
`section_title`, and the overwritten earlier titles produce no slide. -/
theorem consecutive_titles_only_last_survives (layouts : List Nat)
    (run rest : List String) (st : Option String) (bs : List String) (c : Nat)
    (hne : run ≠ []) (hrun : ∀ t ∈ run, t ≠ "" ∧ startsWithDash t = false) :
    slidesLoop layouts (run ++ rest) st bs c =
      slidesLoop layouts (lastTitle run :: rest) st bs c :=
  slidesLoop_title_run layouts run hne hrun rest st bs c

/-- C7 witness: the run `["A", "B"]` followed by a bullet and the
terminator behaves exactly like `["B"]`, and only B's slide is emitted. -/
theorem consecutive_titles_only_last_survives_witness :
    slidesLoop [1, 2] (["A", "B"] ++ ["-x", ""]) none [] 0 =
      slidesLoop [1, 2] (lastTitle ["A", "B"] :: ["-x", ""]) none [] 0 ∧
    slidesLoop [1, 2] (["A", "B"] ++ ["-x", ""]) none [] 0 =
      ([⟨"B", ["x"], 1⟩], none) :=
  ⟨consecutive_titles_only_last_survives [1, 2] ["A", "B"] ["-x", ""] none [] 0
      (by decide) (by decide),
    by decide⟩

/-- C8: the outline-parsing and layout-assignment computation is
deterministic and reads no mutable state beyond its inputs: the result of
`text_to_slides` depends only on the arguments and the two facts it
consults about the bound template file (existence, layout count); two
environments agreeing on those yield identical results, and in this pure
embedding two invocations with identical arguments denote the same value. -/
theorem text_to_slides_deterministic (env env' : Env)
    (title outline_text template_name : String)
    (h1 : env.fileExists (getTemplate template_name).file =
      env'.fileExists (getTemplate template_name).file)
    (h2 : env.layoutCount (getTemplate template_name).file =
      env'.layoutCount (getTemplate template_name).file) :
    text_to_slides env title outline_text template_name =
      text_to_slides env' title outline_text template_name := by
  simp only [text_to_slides, h1, h2]

/-- C8 witness: `envWide` and `envOther` agree on the default template's
file, so generation from it is identical. -/
theorem text_to_slides_deterministic_witness :
    envWide.fileExists (getTemplate "default").file =
      envOther.fileExists (getTemplate "default").file ∧
    envWide.layoutCount (getTemplate "default").file =
      envOther.layoutCount (getTemplate "default").file ∧
    text_to_slides envWide "t" "A\n-x" "default" =
      text_to_slides envOther "t" "A\n-x" "default" :=
  ⟨by decide, by decide,
    text_to_slides_deterministic envWide envOther "t" "A\n-x" "default"
      (by decide) (by decide)⟩

/-- C9: the registry lookup used by `text_to_slides` never fails: a
registered identifier yields its descriptor and an unknown identifier
yields the designated default template rather than an error. -/
theorem getTemplate_never_fails (template_name : String) :
    (TEMPLATES_find template_name = none →
      getTemplate template_name = defaultTemplate) ∧
    ∀ t, TEMPLATES_find template_name = some t → getTemplate template_name = t := by
  constructor
  · intro h
    simp [getTemplate, h]
  · intro t h
    simp [getTemplate, h]

/-- C9 witness: the unknown identifier "shiny" falls back to the default
template. -/
theorem getTemplate_never_fails_witness :
    TEMPLATES_find "shiny" = none ∧ getTemplate "shiny" = defaultTemplate :=
  ⟨by decide, (getTemplate_never_fails "shiny").1 (by decide)⟩

/-- C10 (implicit): the generation endpoint rejects every template name
absent from the registry with the 400 response before generating and
before any file is written (so the default-template fallback inside
`text_to_slides` is unreachable through this endpoint), and every request
either stores exactly its new file and returns its name with the download
URL, or returns an error response with the store unchanged. -/
theorem generate_ppt_guard (env : Env) (store : List String)
    (ts title content template : String) :
    (TEMPLATES_find template = none →
      generate_ppt env store ts title content template =
        (GenResponse.badRequest "无效的模板选择", store)) ∧
    ((∃ fname, generate_ppt env store ts title content template =
        (GenResponse.ok fname ("/download/" ++ fname), store ++ [fname])) ∨
      ((generate_ppt env store ts title content template).2 = store ∧
        ∀ f u, (generate_ppt env store ts title content template).1 ≠
          GenResponse.ok f u)) := by
  constructor
  · intro h
    simp [generate_ppt, h]
  · cases hf : TEMPLATES_find template with
    | none =>
      right
      simp [generate_ppt, hf]
    | some t =>
      cases he : (text_to_slides env title content template).2 with
      | some e =>
        right
        simp [generate_ppt, hf, he]
      | none =>
        left
        exact ⟨"PPT_" ++ ts ++ ".pptx", by simp [generate_ppt, hf, he]⟩

/-- C10 witness: the unregistered template name "nope" gets the 400
response and stores nothing. -/
theorem generate_ppt_guard_witness :
    TEMPLATES_find "nope" = none ∧
    generate_ppt envWide [] "20260101-000000" "t" "o" "nope" =
      (GenResponse.badRequest "无效的模板选择", []) :=
  ⟨by decide,
    (generate_ppt_guard envWide [] "20260101-000000" "t" "o" "nope").1 (by decide)⟩
